import Mathlib

/-!
Verification of the primelinks Telegram bot's product-ingestion pipeline.

Shallow embedding of:
- scraper.py: price cleaning (clean_price), discount computation
  (extract_discount), the retry loop and result assembly of
  get_product_details, and URL validation (is_valid_amazon_url);
- database.py: user upsert (Database.add_user) and category cascade
  removal (Database.remove_category);
- main.py: the in-memory catalog cache rebuild (load_products_from_db).

Network fetches, page parsing and the Mongo driver are abstracted as
explicit parameters (an expansion function for redirect following, an
outcome function for per-attempt extraction results, boolean failure
flags for injected driver exceptions); everything else is translated
directly from the Python source.
-/

/-! ## scraper.py: price normalization and discount -/

/-- Characters kept by the regex `re.sub(r'[^\d.]', '', s)` in
scraper.py: decimal digits and the dot. -/
def keepNumeric (c : Char) : Bool := c.isDigit || c = '.'

/-- Model of `re.sub(r'[^\d.]', '', s)`: drop every character that is
not a digit or a dot. -/
def stripNonNumeric (s : String) : String :=
  String.mk (s.data.filter keepNumeric)

/-- Value of a list of decimal digit characters, most significant first. -/
def digitsVal (cs : List Char) : Nat :=
  cs.foldl (fun acc c => acc * 10 + (c.toNat - 48)) 0

/-- An unreduced fraction `num / den`: the exact value of the (small,
exactly representable in this range) Python float computations of
`extract_discount`. Kept unnormalized so that every operation is plain
integer arithmetic. -/
structure Frac where
  num : Int
  den : Int
deriving DecidableEq, Repr

/-- The rational value of a fraction. -/
def fracVal (a : Frac) : ℚ := (a.num : ℚ) / (a.den : ℚ)

/-- Exact subtraction of fractions. -/
def fracSub (a b : Frac) : Frac := ⟨a.num * b.den - b.num * a.den, a.den * b.den⟩

/-- Exact division of fractions. -/
def fracDiv (a b : Frac) : Frac := ⟨a.num * b.den, a.den * b.num⟩

/-- Multiplication of a fraction by a natural number. -/
def fracMulNat (a : Frac) (n : Nat) : Frac := ⟨a.num * (n : Int), a.den⟩

/-- Is the fraction strictly positive (Python `original > 0`)? -/
def fracPos (a : Frac) : Bool :=
  (0 < a.num && 0 < a.den) || (a.num < 0 && a.den < 0)

/-- Python `int()` applied to the value of a fraction: truncation
toward zero. -/
def fracTruncInt (a : Frac) : Int :=
  let n : Int := if 0 ≤ a.den then a.num else -a.num
  let d : Nat := a.den.natAbs
  if 0 ≤ n then Int.ofNat (n.toNat / d) else -Int.ofNat ((-n).toNat / d)

/-- Model of Python `float(s)` restricted to the strings that can reach
it in scraper.py (outputs of `stripNonNumeric`, i.e. digits and dots):
`float` raises (here: `none`) on the empty string, on more than one dot,
on a string with no digit, and on any character outside digits and dots;
otherwise it yields the exact decimal value. -/
def parseFloatNum (s : String) : Option Frac :=
  let cs := s.data
  if cs.isEmpty then none
  else if cs.any (fun c => ¬ keepNumeric c) then none
  else if 2 ≤ (cs.filter (fun c => c = '.')).length then none
  else if (cs.filter Char.isDigit).isEmpty then none
  else
    let intPart := cs.takeWhile (fun c => c ≠ '.')
    let fracPart := (cs.dropWhile (fun c => c ≠ '.')).drop 1
    some ⟨Int.ofNat (digitsVal intPart * 10 ^ fracPart.length + digitsVal fracPart),
          Int.ofNat (10 ^ fracPart.length)⟩

/-- scraper.py `clean_price`: `None`/empty input gives `None`; otherwise
strip non-numeric characters and prefix the rupee sign. -/
def clean_price : Option String → Option String
  | none => none
  | some s => if s = "" then none else some ("₹" ++ stripNonNumeric s)

/-- scraper.py `extract_discount(current_price, original_price)`:
returns `None` on falsy input; parses both prices after stripping
non-numeric characters (a parse failure is caught and gives `None`);
when the original price is strictly positive, returns
`int((original - current) / original * 100)` rendered with a percent
sign, else `None`. -/
def extract_discount (current_price original_price : Option String) : Option String :=
  match current_price, original_price with
  | some cp, some op =>
    if cp = "" ∨ op = "" then none
    else
      match parseFloatNum (stripNonNumeric cp), parseFloatNum (stripNonNumeric op) with
      | some current, some original =>
        if fracPos original then
          some (toString (fracTruncInt (fracMulNat (fracDiv (fracSub original current) original) 100)) ++ "%")
        else none
      | _, _ => none
  | _, _ => none

/-! ## scraper.py: get_product_details retry loop -/

/-- Observable behaviour of one run of the `get_product_details` retry
loop: how many attempts were started, the bounds (in seconds) of each
`random.uniform` back-off sleep performed between attempts, and the
returned value (`none` models the `return None` after exhaustion). -/
structure RetryTrace (α : Type) where
  attemptsMade : Nat
  sleeps : List (Nat × Nat)
  result : Option α
deriving DecidableEq, Repr

/-- The `for attempt in range(max_retries)` loop of
`get_product_details`: `outcome attempt` abstracts the whole fallible
body of attempt number `attempt` (fetch, parse, field extraction);
`fuel` is the number of iterations left. On failure with `attempt <
max_retries - 1` (i.e. remaining fuel positive) the loop sleeps
`random.uniform(3 * (attempt + 1), 6 * (attempt + 1))`. -/
def retryLoop {α : Type} (outcome : Nat → Option α) : Nat → Nat → RetryTrace α
  | _, 0 => ⟨0, [], none⟩
  | attempt, fuel + 1 =>
    match outcome attempt with
    | some v => ⟨1, [], some v⟩
    | none =>
      let rest := retryLoop outcome (attempt + 1) fuel
      ⟨rest.attemptsMade + 1,
       (if 0 < fuel then [(3 * (attempt + 1), 6 * (attempt + 1))] else []) ++ rest.sleeps,
       rest.result⟩

/-- scraper.py `get_product_details(url, max_retries=3)` viewed as its
attempt/sleep/result trace. -/
def get_product_details {α : Type} (outcome : Nat → Option α) (max_retries : Nat) : RetryTrace α :=
  retryLoop outcome 0 max_retries

/-! ## scraper.py: assembly of the product record -/

/-- A value of one field of the returned product dictionary: either a
string or (for `features`) a list of strings. -/
inductive FieldValue where
  | str : String → FieldValue
  | strList : List String → FieldValue
deriving DecidableEq, Repr

/-- Raw per-field outcome of the selector chains inside one successful
fetch of `get_product_details`, before cleaning and assembly: `none`
models a selector chain that yielded nothing; `features` is the Python
list accumulated by the feature loop, `[]` when nothing was found. -/
structure RawExtraction where
  title : Option String
  price : Option String
  original_price : Option String
  rating : Option String
  reviews : Option String
  description : Option String
  features : List String
  image_url : Option String
deriving DecidableEq, Repr

/-- Python truthiness of an optional string: `None` and the empty
string are falsy. -/
def pyTruthy : Option String → Bool
  | none => false
  | some s => if s = "" then false else true

/-- One entry of the product dictionary for an optional string field:
present exactly when the value is not `None` (the dict comprehension
`if v is not None`). -/
def optEntry (k : String) (v : Option String) : List (String × FieldValue) :=
  match v with
  | some s => [(k, FieldValue.str s)]
  | none => []

/-- Line 355 of scraper.py: `price = clean_price(price) if price else None`. -/
def cleanedPrice (r : RawExtraction) : Option String :=
  if pyTruthy r.price then clean_price r.price else none

/-- Line 356 of scraper.py:
`original_price = clean_price(original_price) if original_price else None`. -/
def cleanedOriginalPrice (r : RawExtraction) : Option String :=
  if pyTruthy r.original_price then clean_price r.original_price else none

/-- Line 357 of scraper.py: `discount = extract_discount(price,
original_price) if price and original_price else None`, with the two
already-cleaned prices. -/
def computedDiscount (r : RawExtraction) : Option String :=
  if pyTruthy (cleanedPrice r) && pyTruthy (cleanedOriginalPrice r)
  then extract_discount (cleanedPrice r) (cleanedOriginalPrice r) else none

/-- Lines 360-374 of scraper.py: the `product_data` dictionary in its
fixed key order after the comprehension dropping `None` values. The
`features` list and the `link` are never `None`, so their entries are
always retained (an empty feature list stays as an empty list). -/
def productEntries (url : String) (r : RawExtraction) : List (String × FieldValue) :=
  optEntry "title" r.title ++ optEntry "price" (cleanedPrice r) ++
  optEntry "original_price" (cleanedOriginalPrice r) ++
  optEntry "discount" (computedDiscount r) ++
  optEntry "rating" r.rating ++ optEntry "reviews" r.reviews ++
  optEntry "description" r.description ++ [("features", FieldValue.strList r.features)] ++
  optEntry "image_url" r.image_url ++ [("link", FieldValue.str url)]

/-- Lines 354-381 of scraper.py: clean the prices, assemble the
filtered dictionary, and fail (raise, here `none`) unless the `title`
and `price` values are both present and truthy. -/
def build_product_data (url : String) (r : RawExtraction) : Option (List (String × FieldValue)) :=
  if pyTruthy r.title && pyTruthy (cleanedPrice r) then some (productEntries url r) else none

/-! ## scraper.py: URL validation -/

/-- Does the second character list start with the first? -/
def headMatch : List Char → List Char → Bool
  | [], _ => true
  | _ :: _, [] => false
  | p :: ps, c :: cs => p = c && headMatch ps cs

/-- Does the pattern occur at some position of the list? -/
def substrAux (pat : List Char) : List Char → Bool
  | [] => pat.isEmpty
  | c :: cs => headMatch pat (c :: cs) || substrAux pat cs

/-- Substring containment, Python's `pat in s`. -/
def strContains (s pat : String) : Bool := substrAux pat.data s.data

/-- Drop everything up to and including the first `://`. -/
def afterSchemeSep : List Char → Option (List Char)
  | [] => none
  | ':' :: '/' :: '/' :: rest => some rest
  | _ :: rest => afterSchemeSep rest

/-- `urlparse(url).netloc` for URLs of the usual `scheme://host/...`
shape: the text between `://` and the next `/`, `?` or `#`; empty when
the URL has no `://`. -/
def urlNetloc (url : String) : String :=
  match afterSchemeSep url.data with
  | some rest => String.mk (rest.takeWhile (fun c => c ≠ '/' ∧ c ≠ '?' ∧ c ≠ '#'))
  | none => ""

/-- scraper.py `is_valid_amazon_url`, with the redirect-following
`expand_shortened_url` abstracted as `expand`: when the raw URL
contains `amzn.to` the netloc of the expanded URL is inspected,
otherwise the netloc of the raw URL; the marker test is performed on
the RAW url string and accepts `dp/`, `gp/product/` or `amzn.to`. -/
def is_valid_amazon_url (expand : String → String) (url : String) : Bool :=
  let parsed_netloc := if strContains url "amzn.to" then urlNetloc (expand url) else urlNetloc url
  (strContains parsed_netloc "amazon.in" || strContains parsed_netloc "amzn.to") &&
  (strContains url "dp/" || strContains url "gp/product/" || strContains url "amzn.to")

/-- A network in which the short link resolves to a deals page carrying
no `/dp/` or `/gp/product/` product-id marker. -/
def expand0 : String → String := fun _ => "https://www.amazon.in/deals/today"

/-! ## database.py: users collection -/

/-- One document of the users collection. -/
structure UserDoc where
  telegram_id : Int
  username : String
  joined_date : Nat
  last_active : Nat
deriving DecidableEq, Repr

/-- database.py `Database.add_user(telegram_id, username, joined_date)`:
`update_one` with filter on `telegram_id`, a `$set` of `username`,
`joined_date` and `last_active` (the latter set to the current time
`now`), and `upsert=True`: the first matching document has all three
fields overwritten; when no document matches, a new one is inserted. -/
def add_user (users : List UserDoc) (tid : Int) (uname : String) (jd now : Nat) : List UserDoc :=
  match users with
  | [] => [⟨tid, uname, jd, now⟩]
  | u :: rest =>
    if u.telegram_id = tid then ⟨tid, uname, jd, now⟩ :: rest
    else u :: add_user rest tid uname jd now

/-! ## database.py: products and categories collections -/

/-- One document of the products collection, reduced to its identity
and its `category` field (the only fields the claims depend on). -/
structure ProductDoc where
  pid : Nat
  category : String
deriving DecidableEq, Repr

/-- The part of the Mongo database touched by `remove_category`. -/
structure Store where
  products : List ProductDoc
  categories : List String
deriving DecidableEq, Repr

/-- Outcome of one `Database.remove_category` call: the database state
afterwards, the boolean the Python function returns to its caller, and
the product count that appears in the success log message (`none` when
the success log line is not reached). -/
structure RemoveResult where
  store : Store
  retval : Bool
  loggedCount : Option Nat
deriving DecidableEq, Repr

/-- database.py `Database.remove_category(category_name)`. Inside one
transaction it deletes every product whose `category` equals the name,
then deletes the category document; the pymongo transaction context
manager aborts (rolling back both deletes) when an exception is raised
inside the block and commits on normal exit, including the
`return False` taken when the category delete matched nothing.
`failProducts` / `failCategory` inject a driver exception into the
respective delete; the surrounding `except` turns any exception into
`return False` with the transaction rolled back. -/
def remove_category (s : Store) (name : String) (failProducts failCategory : Bool) : RemoveResult :=
  if failProducts then ⟨s, false, none⟩
  else if failCategory then ⟨s, false, none⟩
  else
    let removedCount := (s.products.filter (fun p => p.category = name)).length
    let committed : Store :=
      ⟨s.products.filter (fun p => ¬ p.category = name),
       s.categories.filter (fun c => ¬ c = name)⟩
    if name ∈ s.categories then ⟨committed, true, some removedCount⟩
    else ⟨committed, false, none⟩

/-! ## main.py: catalog cache -/

/-- The in-memory catalog: the module-level `PRODUCTS` dict, an
insertion-ordered mapping from category name to product list. -/
abbrev Catalog : Type := List (String × List ProductDoc)

/-- Python dict read with a missing-key default of the empty list. -/
def dictGetD (d : Catalog) (k : String) : List ProductDoc :=
  match d with
  | [] => []
  | (k0, v0) :: rest => if k0 = k then v0 else dictGetD rest k

/-- The body of the product loop in `load_products_from_db`: if the
product's category is already a key, append the product to its list,
otherwise add a new key at the end holding just this product. -/
def dictAppendProd (d : Catalog) (k : String) (p : ProductDoc) : Catalog :=
  match d with
  | [] => [(k, [p])]
  | (k0, v0) :: rest =>
    if k0 = k then (k0, v0 ++ [p]) :: rest
    else (k0, v0) :: dictAppendProd rest k p

/-- main.py `load_products_from_db`, final value: start from a dict
mapping every category name to an empty list, then walk all products,
appending each to its category's list (creating the key if absent). -/
def load_products_from_db (cats : List String) (prods : List ProductDoc) : Catalog :=
  prods.foldl (fun d p => dictAppendProd d p.category p) (cats.map (fun c => (c, [])))

/-- The successive values held by the module-level global `PRODUCTS`
while `load_products_from_db` runs: the previous mapping (until the
assignment `PRODUCTS = ...` on line 46 of main.py), then the freshly
assigned all-empty skeleton, then one state per product appended in
place to the already-assigned dict. -/
def reload_published_states (old : Catalog) (cats : List String) (prods : List ProductDoc) : List Catalog :=
  old :: prods.scanl (fun d p => dictAppendProd d p.category p) (cats.map (fun c => (c, [])))

/-! ## Concrete fixtures -/

/-- A raw extraction where the feature selectors yielded nothing. -/
def rawNoFeatures : RawExtraction :=
  ⟨some "Widget", some "499.00", none, none, none, none, [], none⟩

/-- A store holding an orphan product: its category name has no
category document. -/
def orphanStore : Store := ⟨[⟨1, "X"⟩], []⟩

/-- A store with two categories and one product in each. -/
def demoStore : Store := ⟨[⟨1, "A"⟩, ⟨2, "B"⟩], ["A", "B"]⟩

/-- A store with one product in category X. -/
def cat1Store : Store := ⟨[⟨1, "X"⟩], ["X"]⟩

/-- A store with two products in category X. -/
def cat2Store : Store := ⟨[⟨1, "X"⟩, ⟨2, "X"⟩], ["X"]⟩

/-- A product in category A. -/
def prodA : ProductDoc := ⟨1, "A"⟩

/-! ## C1 -/

/-- C1 counterexample: for the amzn.to short link, with a network in
which it expands to an amazon.in page whose URL carries no `/dp/` and
no `/gp/product/` marker, `is_valid_amazon_url` still returns true —
the claim says validation must fail for every URL lacking the marker
after expansion. -/
theorem c1_counterexample :
  is_valid_amazon_url expand0 "https://amzn.to/3k2L9xQ" = true ∧
  strContains (expand0 "https://amzn.to/3k2L9xQ") "dp/" = false ∧
  strContains (expand0 "https://amzn.to/3k2L9xQ") "gp/product/" = false := by
  decide

/-- C1 amended: the marker test of `is_valid_amazon_url` is performed
on the raw URL string, with the substring `amzn.to` accepted in lieu of
a marker. A URL containing none of `dp/`, `gp/product/`, `amzn.to`
fails validation regardless of the expansion; an amzn.to short link
passes validation whenever its expanded URL's host contains
`amazon.in`, even when no product-id marker exists after expansion. -/
theorem c1_marker_on_raw_url (expand : String → String) (url : String) :
  (strContains url "dp/" = false → strContains url "gp/product/" = false →
    strContains url "amzn.to" = false → is_valid_amazon_url expand url = false) ∧
  (strContains url "amzn.to" = true →
    strContains (urlNetloc (expand url)) "amazon.in" = true →
    is_valid_amazon_url expand url = true) := by
  constructor
  · intro h1 h2 h3
    simp [is_valid_amazon_url, h1, h2, h3]
  · intro h1 h2
    simp [is_valid_amazon_url, h1, h2]

/-- C1 witness: both parts of the amended statement at concrete URLs. -/
theorem c1_marker_on_raw_url_witness :
  is_valid_amazon_url (fun u => u) "https://example.com/a" = false ∧
  is_valid_amazon_url expand0 "https://amzn.to/3k2L9xQ" = true :=
⟨(c1_marker_on_raw_url (fun u => u) "https://example.com/a").1 (by decide) (by decide) (by decide),
 (c1_marker_on_raw_url expand0 "https://amzn.to/3k2L9xQ").2 (by decide) (by decide)⟩

/-! ## C3 -/

/-- C3 counterexample: for current price 100 and original price 300 the
code produces "66%" (truncation by Python `int()`), while the claimed
formula `round(100 * (original - current) / original)` yields 67. -/
theorem c3_counterexample :
  extract_discount (some "₹100") (some "₹300") = some "66%" ∧
  (round ((100 : ℚ) * ((300 - 100) / 300)) : ℤ) = 67 ∧
  ("66%" : String) ≠ "67%" :=
⟨by decide, by norm_num [round_eq], by decide⟩

/-- C3 amended: when both prices clean and parse and the original is
strictly positive, the discount is `int(100 * (original - current) /
original)` — truncation toward zero, not rounding — rendered as an
integer percentage string; (100, 200) yields exactly "50%"; when either
input is absent the discount is `None`, never zero. -/
theorem c3_truncated_discount :
  (∀ s t q1 q2, s ≠ "" → t ≠ "" →
    parseFloatNum (stripNonNumeric s) = some q1 →
    parseFloatNum (stripNonNumeric t) = some q2 →
    fracPos q2 = true →
    extract_discount (some s) (some t) =
      some (toString (fracTruncInt (fracMulNat (fracDiv (fracSub q2 q1) q2) 100)) ++ "%")) ∧
  extract_discount (some "₹100") (some "₹200") = some "50%" ∧
  (∀ op, extract_discount none op = none) ∧
  (∀ cp, extract_discount cp none = none) := by
  refine ⟨?_, by decide, ?_, ?_⟩
  · intro s t q1 q2 hs ht h1 h2 hpos
    simp [extract_discount, hs, ht, h1, h2, hpos]
  · intro op
    rfl
  · intro cp
    cases cp <;> rfl

/-- C3 witness: the truncation formula instantiated at (100, 300). -/
theorem c3_truncated_discount_witness :
  extract_discount (some "100") (some "300") =
    some (toString (fracTruncInt (fracMulNat (fracDiv (fracSub ⟨300, 1⟩ ⟨100, 1⟩) ⟨300, 1⟩) 100)) ++ "%") :=
c3_truncated_discount.1 "100" "300" ⟨100, 1⟩ ⟨300, 1⟩
  (by decide) (by decide) (by decide) (by decide) (by decide)

/-! ## C9 -/

/-- C9: `extract_discount` is total and never divides by zero: for
`None` inputs, for inputs whose stripped text fails to parse as a
number, and for inputs whose parsed original price is not strictly
positive, it returns `None` instead of raising. -/
theorem c9_discount_total (cp op : Option String)
  (h : cp = none ∨ op = none ∨
    (∃ s, cp = some s ∧ parseFloatNum (stripNonNumeric s) = none) ∨
    (∃ t, op = some t ∧ parseFloatNum (stripNonNumeric t) = none) ∨
    (∃ t, op = some t ∧ ∀ q, parseFloatNum (stripNonNumeric t) = some q → fracPos q = false)) :
  extract_discount cp op = none := by
  rcases h with rfl | rfl | ⟨s, rfl, hs⟩ | ⟨t, rfl, ht⟩ | ⟨t, rfl, ht⟩
  · rfl
  · cases cp <;> rfl
  · cases op with
    | none => rfl
    | some t =>
      simp only [extract_discount]
      split
      · rfl
      · rw [hs]
  · cases cp with
    | none => rfl
    | some s =>
      simp only [extract_discount]
      split
      · rfl
      · cases hps : parseFloatNum (stripNonNumeric s) <;> rw [ht]
  · cases cp with
    | none => rfl
    | some s =>
      simp only [extract_discount]
      split
      · rfl
      · cases hps : parseFloatNum (stripNonNumeric s) with
        | none => rfl
        | some q1 =>
          cases hpt : parseFloatNum (stripNonNumeric t) with
          | none => rfl
          | some q2 => simp [ht q2 hpt]

/-- C9 witness: a zero original price and an unparsable original price
both give `None`. -/
theorem c9_discount_total_witness :
  extract_discount (some "₹100") (some "0") = none ∧
  extract_discount (some "₹100") (some "₹1.2.3") = none :=
⟨c9_discount_total (some "₹100") (some "0")
   (Or.inr (Or.inr (Or.inr (Or.inr ⟨"0", rfl, by
     intro q hq
     have h0 : parseFloatNum (stripNonNumeric "0") = some ⟨0, 1⟩ := by decide
     rw [h0] at hq
     injection hq with h
     subst h
     decide⟩)))),
 c9_discount_total (some "₹100") (some "₹1.2.3")
   (Or.inr (Or.inr (Or.inr (Or.inl ⟨"₹1.2.3", rfl, by decide⟩))))⟩

/-! ## C4 -/

/-- C4: when every attempt body fails, `get_product_details` makes
exactly 3 attempts, sleeps a random interval with bounds `[3n, 6n]`
after failed attempt `n` for `n = 1, 2` (and not after the last), and
returns `None`; the model is a total function, reflecting that the
per-attempt `except` clause converts every exception into a retry or
the final `return None`. -/
theorem c4_retry_bound {α : Type} (outcome : Nat → Option α)
  (h : ∀ n, outcome n = none) :
  get_product_details outcome 3 = ⟨3, [(3, 6), (6, 12)], none⟩ := by
  simp [get_product_details, retryLoop, h]

/-- C4 witness: the retry bound at a concretely always-failing outcome. -/
theorem c4_retry_bound_witness :
  get_product_details (fun _ => (none : Option Nat)) 3 = ⟨3, [(3, 6), (6, 12)], none⟩ :=
c4_retry_bound (fun _ => none) (fun _ => rfl)

/-! ## Helper lemmas about filters -/

/-- Filtering for a category after removing that category yields nothing. -/
theorem filter_category_of_removed (l : List ProductDoc) (name : String) :
  ((l.filter (fun p => ¬ p.category = name)).filter (fun p => p.category = name)) = [] := by
  induction l with
  | nil => rfl
  | cons a t ih => by_cases h : a.category = name <;> simp [List.filter_cons, h, ih]

/-- A name does not survive a filter that removes it. -/
theorem not_mem_filter_self (l : List String) (name : String) :
  name ∉ l.filter (fun c => ¬ c = name) := by
  intro h
  have h2 := List.mem_filter.mp h
  simp at h2

/-! ## C2 -/

/-- C2 counterexample: on a store whose products reference category X
while no category document X exists, `remove_category` reports failure
(returns False, because the category delete matched nothing) yet the
product deletions are committed — the stored state changed, refuting
the all-or-nothing claim that every failing run leaves the state
unchanged. -/
theorem c2_counterexample :
  (remove_category orphanStore "X" false false).retval = false ∧
  (remove_category orphanStore "X" false false).store ≠ orphanStore ∧
  (remove_category orphanStore "X" false false).store.products = [] := by
  decide

/-- C2 amended: an exception in either delete aborts the transaction,
leaving the store unchanged with failure reported; a run in which the
category document exists succeeds, leaving zero products referencing
the name and the category absent; but a run in which the category
document is absent reports failure while still committing the deletion
of every product referencing the name. -/
theorem c2_transaction (s : Store) (name : String) (f1 f2 : Bool) :
  (f1 = true ∨ f2 = true → remove_category s name f1 f2 = ⟨s, false, none⟩) ∧
  (f1 = false → f2 = false → name ∈ s.categories →
    (remove_category s name f1 f2).retval = true ∧
    ((remove_category s name f1 f2).store.products.filter (fun p => p.category = name)) = [] ∧
    name ∉ (remove_category s name f1 f2).store.categories) ∧
  (f1 = false → f2 = false → name ∉ s.categories →
    (remove_category s name f1 f2).retval = false ∧
    (remove_category s name f1 f2).store.products = s.products.filter (fun p => ¬ p.category = name)) := by
  refine ⟨?_, ?_, ?_⟩
  · rintro (rfl | rfl)
    · simp [remove_category]
    · cases f1 <;> simp [remove_category]
  · rintro rfl rfl hmem
    simp [remove_category, hmem, filter_category_of_removed, not_mem_filter_self]
  · rintro rfl rfl hnmem
    simp [remove_category, hnmem]

/-- C2 witness: the three scenarios at concrete stores. -/
theorem c2_transaction_witness :
  remove_category demoStore "A" true false = ⟨demoStore, false, none⟩ ∧
  (remove_category demoStore "A" false false).retval = true ∧
  (remove_category orphanStore "X" false false).retval = false :=
⟨(c2_transaction demoStore "A" true false).1 (Or.inl rfl),
 ((c2_transaction demoStore "A" false false).2.1 rfl rfl (by decide)).1,
 ((c2_transaction orphanStore "X" false false).2.2 rfl rfl (by decide)).1⟩

/-! ## C6 -/

/-- C6 counterexample: two successful runs that removed different
numbers of products (1 and 2) return the identical bare boolean True to
the caller, so the value the operation reports alongside success cannot
carry the count of products removed. -/
theorem c6_counterexample :
  (remove_category cat1Store "X" false false).retval =
    (remove_category cat2Store "X" false false).retval ∧
  (cat1Store.products.filter (fun p => p.category = "X")).length = 1 ∧
  (cat2Store.products.filter (fun p => p.category = "X")).length = 2 := by
  decide

/-- C6 amended: a successful `remove_category` returns only the boolean
True; the count of removed products appears solely in the success log
message, not in the value returned to the caller. -/
theorem c6_count_only_logged (s : Store) (name : String) (h : name ∈ s.categories) :
  (remove_category s name false false).retval = true ∧
  (remove_category s name false false).loggedCount =
    some ((s.products.filter (fun p => p.category = name)).length) := by
  simp [remove_category, h]

/-- C6 witness: the logged count at a concrete two-product store. -/
theorem c6_count_only_logged_witness :
  (remove_category cat2Store "X" false false).retval = true ∧
  (remove_category cat2Store "X" false false).loggedCount =
    some ((cat2Store.products.filter (fun p => p.category = "X")).length) :=
c6_count_only_logged cat2Store "X" (by decide)

/-! ## C5 -/

/-- C5 counterexample: adding an already-present user id 7 with a new
joined date 10 overwrites the stored joined date 5 — `add_user` uses a
plain Mongo set on `joined_date`, so the previously stored value is not
preserved. -/
theorem c5_counterexample :
  add_user [⟨7, "alice", 5, 5⟩] 7 "alice" 10 11 = [⟨7, "alice", 10, 11⟩] ∧
  UserDoc.joined_date ⟨7, "alice", 10, 11⟩ ≠ UserDoc.joined_date ⟨7, "alice", 5, 5⟩ := by
  decide

/-- C5 amended: for an id already present, `add_user` updates the first
matching document in place — no duplicate is created and every other
document is untouched — but it overwrites `username`, `joined_date` and
`last_active` with the arguments; in particular the stored joined date
is replaced by the passed one, not preserved. -/
theorem c5_upsert_overwrites (l1 l2 : List UserDoc) (u : UserDoc) (tid : Int)
  (uname : String) (jd now : Nat)
  (hu : u.telegram_id = tid) (hl1 : ∀ v ∈ l1, v.telegram_id ≠ tid) :
  add_user (l1 ++ u :: l2) tid uname jd now = l1 ++ ⟨tid, uname, jd, now⟩ :: l2 ∧
  (add_user (l1 ++ u :: l2) tid uname jd now).length = (l1 ++ u :: l2).length := by
  have heq : ∀ (l : List UserDoc), (∀ v ∈ l, v.telegram_id ≠ tid) →
      add_user (l ++ u :: l2) tid uname jd now = l ++ ⟨tid, uname, jd, now⟩ :: l2 := by
    intro l
    induction l with
    | nil => intro _; simp [add_user, hu]
    | cons v t ih =>
      intro hl
      have hv : v.telegram_id ≠ tid := hl v (List.mem_cons_self v t)
      simp only [List.cons_append, add_user, if_neg hv]
      exact congrArg (v :: ·) (ih (fun w hw => hl w (List.mem_cons_of_mem v hw)))
  refine ⟨heq l1 hl1, ?_⟩
  rw [heq l1 hl1]
  simp

/-- C5 witness: the overwrite behaviour at a concrete two-user store. -/
theorem c5_upsert_overwrites_witness :
  add_user ([⟨1, "bob", 3, 3⟩] ++ ⟨7, "alice", 5, 5⟩ :: []) 7 "alice" 10 11 =
    [⟨1, "bob", 3, 3⟩] ++ ⟨7, "alice", 10, 11⟩ :: [] :=
(c5_upsert_overwrites [⟨1, "bob", 3, 3⟩] [] ⟨7, "alice", 5, 5⟩ 7 "alice" 10 11
  rfl (by decide)).1

/-! ## C7 -/

/-- Membership in an optional-field entry list. -/
theorem mem_optEntry {k : String} {o : Option String} {kv : String × FieldValue} :
  kv ∈ optEntry k o ↔ ∃ s, o = some s ∧ kv = (k, FieldValue.str s) := by
  cases o <;> simp [optEntry]

/-- C7 counterexample: a successful extraction in which the feature
selectors yielded nothing still contains a `features` entry — with an
empty-list placeholder — because the dict comprehension only drops
`None` values and the Python `features` variable is `[]`, not `None`;
this refutes the claim that every field whose extraction yielded
nothing is absent from the result. -/
theorem c7_counterexample :
  build_product_data "https://www.amazon.in/dp/B0TESTTEST" rawNoFeatures =
    some [("title", FieldValue.str "Widget"), ("price", FieldValue.str "₹499.00"),
          ("features", FieldValue.strList []),
          ("link", FieldValue.str "https://www.amazon.in/dp/B0TESTTEST")] ∧
  ("features", FieldValue.strList []) ∈
    [("title", FieldValue.str "Widget"), ("price", FieldValue.str "₹499.00"),
     ("features", FieldValue.strList []),
     ("link", FieldValue.str "https://www.amazon.in/dp/B0TESTTEST")] := by
  decide

/-- C7 amended: every successful result omits the fields whose value is
`None` (original price, discount, rating, reviews, description, image),
but the `features` entry is always present, carrying an empty list when
the feature extraction yielded nothing. -/
theorem c7_none_filter (url : String) (r : RawExtraction) (res : List (String × FieldValue))
  (hres : build_product_data url r = some res) :
  ("features", FieldValue.strList r.features) ∈ res ∧
  (r.original_price = none → ∀ v, ("original_price", v) ∉ res) ∧
  (computedDiscount r = none → ∀ v, ("discount", v) ∉ res) ∧
  (r.rating = none → ∀ v, ("rating", v) ∉ res) ∧
  (r.reviews = none → ∀ v, ("reviews", v) ∉ res) ∧
  (r.description = none → ∀ v, ("description", v) ∉ res) ∧
  (r.image_url = none → ∀ v, ("image_url", v) ∉ res) := by
  unfold build_product_data at hres
  split at hres
  · injection hres with h
    subst h
    refine ⟨by simp [productEntries], ?_, ?_, ?_, ?_, ?_, ?_⟩
    · intro h v
      simp [productEntries, mem_optEntry, cleanedOriginalPrice, h, pyTruthy]
    · intro h v
      simp [productEntries, mem_optEntry, h]
    · intro h v
      simp [productEntries, mem_optEntry, h]
    · intro h v
      simp [productEntries, mem_optEntry, h]
    · intro h v
      simp [productEntries, mem_optEntry, h]
    · intro h v
      simp [productEntries, mem_optEntry, h]
  · cases hres

/-- C7 witness: the amended statement at a concrete extraction with no
features and no original price. -/
theorem c7_none_filter_witness :
  ("features", FieldValue.strList rawNoFeatures.features) ∈
    [("title", FieldValue.str "Widget"), ("price", FieldValue.str "₹499.00"),
     ("features", FieldValue.strList []), ("link", FieldValue.str "u")] ∧
  ∀ v, ("original_price", v) ∉
    [("title", FieldValue.str "Widget"), ("price", FieldValue.str "₹499.00"),
     ("features", FieldValue.strList []), ("link", FieldValue.str "u")] :=
⟨(c7_none_filter "u" rawNoFeatures _ (by decide)).1,
 (c7_none_filter "u" rawNoFeatures _ (by decide)).2.1 rfl⟩

/-! ## C8 and C10: catalog cache lemmas -/

/-- Reading after one append: the looked-up list gains the product
exactly when the keys agree. -/
theorem dictGetD_dictAppendProd (d : Catalog) (k : String) (p : ProductDoc) (c : String) :
  dictGetD (dictAppendProd d k p) c = dictGetD d c ++ (if k = c then [p] else []) := by
  induction d with
  | nil => by_cases h : k = c <;> simp [dictAppendProd, dictGetD, h]
  | cons kv rest ih =>
    obtain ⟨k0, v0⟩ := kv
    by_cases h0 : k0 = k
    · subst h0
      by_cases h : k0 = c <;> simp [dictAppendProd, dictGetD, h]
    · by_cases h : k0 = c
      · subst h
        have hkc : ¬ k = k0 := fun hh => h0 hh.symm
        simp [dictAppendProd, dictGetD, h0, hkc]
      · simp [dictAppendProd, dictGetD, h0, h, ih]

/-- The freshly assigned skeleton maps every name to the empty list. -/
theorem dictGetD_skeleton (cats : List String) (c : String) :
  dictGetD (cats.map (fun x => (x, ([] : List ProductDoc)))) c = [] := by
  induction cats with
  | nil => rfl
  | cons a t ih => by_cases h : a = c <;> simp [dictGetD, h, ih]

/-- The fully rebuilt catalog groups the products exactly: looking up
any name yields precisely the products carrying that category, in
order. -/
theorem dictGetD_load (cats : List String) (prods : List ProductDoc) (c : String) :
  dictGetD (load_products_from_db cats prods) c = prods.filter (fun q => q.category = c) := by
  suffices h : ∀ (ps : List ProductDoc) (d : Catalog),
      dictGetD (ps.foldl (fun d p => dictAppendProd d p.category p) d) c =
        dictGetD d c ++ ps.filter (fun q => q.category = c) by
    rw [load_products_from_db, h prods, dictGetD_skeleton]
    simp
  intro ps
  induction ps with
  | nil => intro d; simp
  | cons p t ih =>
    intro d
    rw [List.foldl_cons, ih, dictGetD_dictAppendProd]
    by_cases h : p.category = c <;> simp [List.filter_cons, h]

/-- The last published state of a scan is the fold over the whole list. -/
theorem getLast?_scanl {α β : Type} (f : β → α → β) (i : β) (l : List α) :
  (List.scanl f i l).getLast? = some (l.foldl f i) := by
  induction l generalizing i with
  | nil => rfl
  | cons a t ih =>
    cases t with
    | nil => rfl
    | cons b u =>
      have h2 := ih (f i a)
      rw [List.scanl_cons] at h2
      simp only [List.singleton_append] at h2
      rw [List.scanl_cons, List.scanl_cons]
      simp only [List.singleton_append]
      rw [List.getLast?_cons_cons, List.foldl_cons]
      exact h2

/-! ## C8 -/

/-- C8 counterexample: reloading a previously empty cache with one
category A owning one product publishes, as an intermediate value of
the global dict, the skeleton mapping A to the empty list — a state
that is neither the previous mapping nor the fully built new mapping,
refuting the claim that the new mapping is fully constructed before it
is published. -/
theorem c8_counterexample :
  [("A", ([] : List ProductDoc))] ∈ reload_published_states [] ["A"] [prodA] ∧
  [("A", ([] : List ProductDoc))] ≠ ([] : Catalog) ∧
  [("A", ([] : List ProductDoc))] ≠ load_products_from_db ["A"] [prodA] := by
  decide

/-- C8 amended: during a reload the shared global successively holds
the old mapping, then the freshly assigned all-empty category skeleton,
then one state per product appended in place; the old mapping itself is
never mutated (it is the unchanged head of the published sequence) and
the final published state is the fully grouped new mapping — but the
assignment happens before construction finishes, so partially built
states are published. -/
theorem c8_reload_states (old : Catalog) (cats : List String) (prods : List ProductDoc) :
  (reload_published_states old cats prods).head? = some old ∧
  (cats.map (fun c => (c, ([] : List ProductDoc)))) ∈ reload_published_states old cats prods ∧
  (reload_published_states old cats prods).getLast? = some (load_products_from_db cats prods) := by
  refine ⟨rfl, ?_, ?_⟩
  · cases prods with
    | nil =>
      exact List.mem_cons_of_mem _ (by rw [List.scanl_nil]; exact List.mem_singleton_self _)
    | cons p ps =>
      exact List.mem_cons_of_mem _ (by rw [List.scanl_cons]; exact List.mem_cons_self _ _)
  · cases prods with
    | nil => rfl
    | cons p ps =>
      show (old :: List.scanl _ _ (p :: ps)).getLast? = _
      rw [List.scanl_cons]
      simp only [List.singleton_append]
      rw [List.getLast?_cons_cons]
      exact getLast?_scanl (fun d q => dictAppendProd d q.category q)
        (List.map (fun c => (c, [])) cats) (p :: ps)

/-! ## C10 -/

/-- C10: after a reload, looking up any category name in the rebuilt
cache yields exactly the products stored under that name — so every
stored product appears under its category exactly once (given distinct
product documents), including products whose category has no document
in the categories collection: the reload creates the missing cache
entry rather than dropping the product. -/
theorem c10_orphan_grouping (cats : List String) (prods : List ProductDoc) (p : ProductDoc)
  (hmem : p ∈ prods) (hnd : prods.Nodup) :
  (∀ c, dictGetD (load_products_from_db cats prods) c = prods.filter (fun q => q.category = c)) ∧
  (dictGetD (load_products_from_db cats prods) p.category).count p = 1 := by
  refine ⟨fun c => dictGetD_load cats prods c, ?_⟩
  rw [dictGetD_load, List.count_filter (by simp)]
  exact List.count_eq_one_of_mem hnd hmem

/-- C10 witness: an orphan product (its category A has no category
document — the category list is empty) still appears exactly once under
its category after the rebuild. -/
theorem c10_orphan_grouping_witness :
  (dictGetD (load_products_from_db [] [prodA]) prodA.category).count prodA = 1 :=
(c10_orphan_grouping [] [prodA] prodA (by decide) (by decide)).2
